import Mathlib

/-!
Verification development for the cxmod support-dashboard repository.

The relevant program logic lives in the ticket hook (useTickets), the feedback
hook (useFeedback), the FeedbackForm component, and the Notion service.  This
file gives a shallow embedding of that logic: JavaScript primitives used by the
code (trim, truthiness, 32-bit wrap, Number/parseFloat/parseInt, JSON parse and
stringify), the tag codec (safeJsonParse / safeJsonStringify), the write-path
payload builders, the search pipeline and the hook state transitions, and then
settles the frozen claims as theorems about these definitions.
-/

/-! ## JavaScript string primitives -/

/-- Whitespace characters removed by the JavaScript trim operation
(space, tab, LF, CR, VT, FF, NBSP, BOM, the Unicode space separators and
line/paragraph separators). -/
def jsWhitespaceB (c : Char) : Bool :=
  c = ' ' || c = '\t' || c = '\n' || c = '\r' || c = '\x0b' || c = '\x0c' ||
  c = ' ' || c = '﻿' || c = ' ' || c = ' ' || c = ' ' ||
  c = ' ' || c = ' ' || c = ' ' || c = ' ' || c = ' ' ||
  c = ' ' || c = ' ' || c = ' ' || c = ' ' || c = ' ' ||
  c = ' ' || c = ' ' || c = ' ' || c = '　'

/-- Character-list version of the JavaScript trim: drop whitespace from both ends. -/
def jsTrimChars (cs : List Char) : List Char :=
  ((cs.dropWhile jsWhitespaceB).reverse.dropWhile jsWhitespaceB).reverse

/-- Model of the JavaScript String.prototype.trim. -/
def jsTrim (s : String) : String :=
  String.mk (jsTrimChars s.data)

/-- ASCII lowercase of a character list; models how ilike and toLowerCase fold
case for the strings this application stores. -/
def toLowerL (cs : List Char) : List Char :=
  cs.map Char.toLower

/-- Does the list start with the given pattern. -/
def startsWithL : List Char → List Char → Bool
  | _, [] => true
  | [], _ :: _ => false
  | c :: t, p :: q => c = p && startsWithL t q

/-- Does the haystack contain the needle as a contiguous sublist. -/
def hasSub : List Char → List Char → Bool
  | hay, needle =>
    if startsWithL hay needle then true
    else match hay with
      | [] => false
      | _ :: t => hasSub t needle

/-! ## JavaScript numeric primitives -/

/-- ToInt32: reduce an integer modulo two to the thirty-second into the signed
32-bit range, as the JavaScript bitwise operators do. -/
def toInt32 (x : Int) : Int :=
  let m := x % 4294967296
  if m < 2147483648 then m else m - 4294967296

/-- UTF-16 code units of a string, the values charCodeAt ranges over when the
code splits a string into single characters. -/
def utf16Codes (s : String) : List Nat :=
  (s.data.map (fun c =>
    let n := c.toNat
    if n < 65536 then [n]
    else [55296 + (n - 65536) / 1024, 56320 + (n - 65536) % 1024])).flatten

/-- One step of the hash loop in createTicket and updateTicket:
a = ((a << 5) - a) + code; a = a & a.  The shift is a 32-bit shift of an
int32 value and the final bitwise and coerces back to int32. -/
def jsHashStep (a : Int) (code : Nat) : Int :=
  toInt32 (toInt32 (a * 32) - a + (code : Int))

/-- The string hash used as a numeric surrogate for non-numeric ticket
identifiers: fold jsHashStep over the UTF-16 code units starting from 0. -/
def jsHash (s : String) : Int :=
  (utf16Codes s).foldl jsHashStep 0

/-- Nonempty list of decimal digits. -/
def isDigitsNE (cs : List Char) : Bool :=
  !cs.isEmpty && cs.all (·.isDigit)

/-- Hexadecimal digit test. -/
def isHexDigitB (c : Char) : Bool :=
  c.isDigit || ('a' ≤ c && c ≤ 'f') || ('A' ≤ c && c ≤ 'F')

/-- Octal digit test. -/
def isOctDigitB (c : Char) : Bool :=
  '0' ≤ c && c ≤ '7'

/-- Binary digit test. -/
def isBinDigitB (c : Char) : Bool :=
  c = '0' || c = '1'

/-- Mantissa of a JavaScript decimal literal: digits, digits dot digits,
digits dot, or dot digits. -/
def mantOk (m : List Char) : Bool :=
  let ip := m.takeWhile (·.isDigit)
  match m.dropWhile (·.isDigit) with
  | [] => !ip.isEmpty
  | '.' :: fp => (!ip.isEmpty || !fp.isEmpty) && fp.all (·.isDigit)
  | _ => false

/-- Exponent body of a JavaScript decimal literal: optional sign then digits. -/
def expOk (e : List Char) : Bool :=
  match e with
  | [] => false
  | c :: t => if c = '+' || c = '-' then isDigitsNE t else isDigitsNE e

/-- Unsigned JavaScript decimal literal, Infinity included. -/
def decLitU (cs : List Char) : Bool :=
  if cs = "Infinity".data then true
  else
    let m := cs.takeWhile (fun c => !(c = 'e' || c = 'E'))
    match cs.dropWhile (fun c => !(c = 'e' || c = 'E')) with
    | [] => mantOk m
    | _ :: e => mantOk m && expOk e

/-- Body of a string accepted by the Number conversion: a signed decimal
literal, or an unsigned hexadecimal, octal or binary literal. -/
def numericCore (cs : List Char) : Bool :=
  match cs with
  | '0' :: 'x' :: t => !t.isEmpty && t.all isHexDigitB
  | '0' :: 'X' :: t => !t.isEmpty && t.all isHexDigitB
  | '0' :: 'o' :: t => !t.isEmpty && t.all isOctDigitB
  | '0' :: 'O' :: t => !t.isEmpty && t.all isOctDigitB
  | '0' :: 'b' :: t => !t.isEmpty && t.all isBinDigitB
  | '0' :: 'B' :: t => !t.isEmpty && t.all isBinDigitB
  | '+' :: t => decLitU t
  | '-' :: t => decLitU t
  | _ => decLitU cs

/-- Is Number(s) NaN.  The empty (or all-whitespace) string converts to zero,
hence is not NaN. -/
def jsNumberIsNaN (s : String) : Bool :=
  let cs := jsTrimChars s.data
  if cs.isEmpty then false else !numericCore cs

/-- Is parseFloat(s) NaN: after leading whitespace and an optional sign the
input must begin with a digit, a dot followed by a digit, or Infinity. -/
def jsParseFloatIsNaN (s : String) : Bool :=
  let cs := s.data.dropWhile jsWhitespaceB
  let cs2 := match cs with
    | c :: t => if c = '+' || c = '-' then t else cs
    | [] => []
  !(match cs2 with
    | [] => false
    | '.' :: c :: _ => c.isDigit
    | c :: _ => c.isDigit || startsWithL cs2 "Infinity".data)

/-- The helper isNumeric of the ticket hook:
not isNaN(Number(str)) and not isNaN(parseFloat(str)). -/
def isNumeric (s : String) : Bool :=
  !jsNumberIsNaN s && !jsParseFloatIsNaN s

/-- Digit list to number in the given base. -/
def digitsToNat (base : Nat) (ds : List Char) : Nat :=
  ds.foldl (fun acc c =>
    acc * base +
      (if c.isDigit then c.toNat - 48
       else if 'a' ≤ c && c ≤ 'f' then c.toNat - 87
       else c.toNat - 55)) 0

/-- Model of parseInt with no radix argument: skip whitespace, optional sign,
then a 0x-prefixed hexadecimal or a decimal digit run; none models NaN.
Precision loss of very long doubles is not modelled. -/
def jsParseInt (s : String) : Option Int :=
  let cs0 := s.data.dropWhile jsWhitespaceB
  let sign : Int := match cs0 with
    | '-' :: _ => -1
    | _ => 1
  let cs1 := match cs0 with
    | '-' :: t => t
    | '+' :: t => t
    | _ => cs0
  match cs1 with
  | '0' :: 'x' :: t =>
      let digs := t.takeWhile isHexDigitB
      if digs.isEmpty then none else some (sign * (digitsToNat 16 digs : Int))
  | '0' :: 'X' :: t =>
      let digs := t.takeWhile isHexDigitB
      if digs.isEmpty then none else some (sign * (digitsToNat 16 digs : Int))
  | _ =>
      let digs := cs1.takeWhile (·.isDigit)
      if digs.isEmpty then none else some (sign * (digitsToNat 10 digs : Int))

/-! ## JSON values, JSON.stringify of string arrays, JSON.parse -/

/-- JavaScript values a tag column can hold after JSON.parse, plus jundef for
arbitrary non-JSON array elements a legacy value might contain. -/
inductive JsVal where
  | jnull
  | jbool (b : Bool)
  | jnum (tok : String)
  | jstr (s : String)
  | jarr (elems : List JsVal)
  | jobj (members : List (String × JsVal))
  | jundef

/-- Lowercase hexadecimal digit. -/
def hexLower (n : Nat) : Char :=
  if n < 10 then Char.ofNat (48 + n) else Char.ofNat (87 + n)

/-- JSON.stringify escaping of one character inside a string literal. -/
def escChar (c : Char) : List Char :=
  if c = '"' then ['\\', '"']
  else if c = '\\' then ['\\', '\\']
  else if c = '\x08' then ['\\', 'b']
  else if c = '\x09' then ['\\', 't']
  else if c = '\x0a' then ['\\', 'n']
  else if c = '\x0c' then ['\\', 'f']
  else if c = '\x0d' then ['\\', 'r']
  else if c.toNat < 32 then ['\\', 'u', '0', '0', hexLower (c.toNat / 16), hexLower (c.toNat % 16)]
  else [c]

/-- Escape every character of a string body. -/
def escList (cs : List Char) : List Char :=
  (cs.map escChar).flatten

/-- JSON string literal for one string. -/
def encStr (s : String) : List Char :=
  '"' :: (escList s.data ++ ['"'])

/-- Comma-separated encodings of the array elements. -/
def encElems : List String → List Char
  | [] => []
  | [s] => encStr s
  | s :: rest => encStr s ++ (',' :: encElems rest)

/-- JSON.stringify of an array of strings, at the character level. -/
def encArr (l : List String) : List Char :=
  '[' :: (encElems l ++ [']'])

/-- JSON.stringify of an array of strings. -/
def jsonStringifyStrArr (l : List String) : String :=
  String.mk (encArr l)

/-- JSON whitespace. -/
def isJsonWs (c : Char) : Bool :=
  c = ' ' || c = '\t' || c = '\n' || c = '\r'

/-- Skip JSON whitespace. -/
def skipWs (cs : List Char) : List Char :=
  cs.dropWhile isJsonWs

/-- Value of a hexadecimal digit, if it is one. -/
def hexVal (c : Char) : Option Nat :=
  if c.isDigit then some (c.toNat - 48)
  else if 'a' ≤ c && c ≤ 'f' then some (c.toNat - 87)
  else if 'A' ≤ c && c ≤ 'F' then some (c.toNat - 55)
  else none

/-- Prepend a character to the body of a partial string-parse result. -/
def pre (c : Char) (r : Option (List Char × List Char)) : Option (List Char × List Char) :=
  r.map (fun p => (c :: p.1, p.2))

/-- Parse the body of a JSON string literal after the opening quote, returning
the decoded characters and the input after the closing quote.  Surrogate
escape pairs are not recombined: a lone \u escape in the surrogate range is
rejected, which never arises for output of the stringifier modelled here. -/
def parseStringBody : List Char → Option (List Char × List Char)
  | [] => none
  | c :: rest =>
    if c = '"' then some ([], rest)
    else if c = '\\' then
      match rest with
      | [] => none
      | e :: rest2 =>
        if e = '"' then pre '"' (parseStringBody rest2)
        else if e = '\\' then pre '\\' (parseStringBody rest2)
        else if e = '/' then pre '/' (parseStringBody rest2)
        else if e = 'b' then pre '\x08' (parseStringBody rest2)
        else if e = 'f' then pre '\x0c' (parseStringBody rest2)
        else if e = 'n' then pre '\x0a' (parseStringBody rest2)
        else if e = 'r' then pre '\x0d' (parseStringBody rest2)
        else if e = 't' then pre '\x09' (parseStringBody rest2)
        else if e = 'u' then
          match rest2 with
          | h1 :: h2 :: h3 :: h4 :: rest3 =>
            match hexVal h1, hexVal h2, hexVal h3, hexVal h4 with
            | some a, some b, some c2, some d =>
              let code := ((a * 16 + b) * 16 + c2) * 16 + d
              if code < 55296 || 57344 ≤ code then pre (Char.ofNat code) (parseStringBody rest3)
              else none
            | _, _, _, _ => none
          | _ => none
        else none
    else if c.toNat < 32 then none
    else pre c (parseStringBody rest)

/-- Fractional part of a JSON number: a dot with digits, or nothing. -/
def parseFrac (cs : List Char) : Option (List Char × List Char) :=
  match cs with
  | '.' :: t =>
    let ds := t.takeWhile (·.isDigit)
    if ds.isEmpty then none else some ('.' :: ds, t.dropWhile (·.isDigit))
  | _ => some ([], cs)

/-- Exponent part of a JSON number: e or E, optional sign, digits, or nothing. -/
def parseExpPart (cs : List Char) : Option (List Char × List Char) :=
  match cs with
  | [] => some ([], [])
  | c :: t =>
    if c = 'e' || c = 'E' then
      let sgn := match t with
        | '+' :: _ => ['+']
        | '-' :: _ => ['-']
        | _ => []
      let t2 := match t with
        | '+' :: u => u
        | '-' :: u => u
        | _ => t
      let ds := t2.takeWhile (·.isDigit)
      if ds.isEmpty then none else some (c :: (sgn ++ ds), t2.dropWhile (·.isDigit))
    else some ([], cs)

/-- Fraction then exponent. -/
def parseFracExp (cs : List Char) : Option (List Char × List Char) :=
  (parseFrac cs).bind fun p =>
    (parseExpPart p.2).map fun q => (p.1 ++ q.1, q.2)

/-- JSON number token: optional minus, integer part without leading zeros,
then fraction and exponent. -/
def parseNumTok (cs : List Char) : Option (List Char × List Char) :=
  let neg : List Char := match cs with
    | '-' :: _ => ['-']
    | _ => []
  let cs1 := match cs with
    | '-' :: t => t
    | _ => cs
  match cs1 with
  | [] => none
  | c :: t =>
    if c = '0' then (parseFracExp t).map (fun p => (neg ++ ('0' :: p.1), p.2))
    else if c.isDigit then
      let ds := t.takeWhile (·.isDigit)
      (parseFracExp (t.dropWhile (·.isDigit))).map
        (fun p => (neg ++ (c :: (ds ++ p.1)), p.2))
    else none

mutual

/-- Fueled JSON value parse; the fuel only bounds the recursion through
arrays and objects and is chosen large enough at the top level. -/
def parseVal : Nat → List Char → Option (JsVal × List Char)
  | 0, _ => none
  | Nat.succ fuel, cs =>
    match skipWs cs with
    | 'n' :: 'u' :: 'l' :: 'l' :: rest => some (.jnull, rest)
    | 't' :: 'r' :: 'u' :: 'e' :: rest => some (.jbool true, rest)
    | 'f' :: 'a' :: 'l' :: 's' :: 'e' :: rest => some (.jbool false, rest)
    | '"' :: rest => (parseStringBody rest).map (fun p => (.jstr (String.mk p.1), p.2))
    | '[' :: rest =>
      (match skipWs rest with
       | ']' :: rest3 => some (.jarr [], rest3)
       | rest2 => (parseElems fuel rest2).map (fun p => (.jarr p.1, p.2)))
    | '{' :: rest =>
      (match skipWs rest with
       | '}' :: rest3 => some (.jobj [], rest3)
       | rest2 => (parseMembers fuel rest2).map (fun p => (.jobj p.1, p.2)))
    | rest => (parseNumTok rest).map (fun p => (.jnum (String.mk p.1), p.2))

/-- Parse one or more comma-separated array elements up to the closing bracket. -/
def parseElems : Nat → List Char → Option (List JsVal × List Char)
  | 0, _ => none
  | Nat.succ fuel, cs =>
    (parseVal fuel cs).bind fun p =>
      match skipWs p.2 with
      | ',' :: rest => (parseElems fuel rest).map (fun q => (p.1 :: q.1, q.2))
      | ']' :: rest => some ([p.1], rest)
      | _ => none

/-- Parse one or more object members up to the closing brace. -/
def parseMembers : Nat → List Char → Option (List (String × JsVal) × List Char)
  | 0, _ => none
  | Nat.succ fuel, cs =>
    match skipWs cs with
    | '"' :: rest =>
      (parseStringBody rest).bind fun kp =>
        match skipWs kp.2 with
        | ':' :: rest2 =>
          (parseVal fuel rest2).bind fun vp =>
            match skipWs vp.2 with
            | ',' :: rest3 =>
              (parseMembers fuel rest3).map (fun q => ((String.mk kp.1, vp.1) :: q.1, q.2))
            | '}' :: rest3 => some ([(String.mk kp.1, vp.1)], rest3)
            | _ => none
        | _ => none
    | _ => none

end

/-- Model of JSON.parse: parse one value and require only whitespace after it;
none models the thrown SyntaxError. -/
def jsonParse (s : String) : Option JsVal :=
  match parseVal (2 * s.data.length + 2) s.data with
  | some (v, rest) => if (skipWs rest).isEmpty then some v else none
  | none => none

/-! ## The tag codec of the ticket hook -/

/-- A value the tag columns can hold when handed to safeJsonParse:
null or undefined, a string, or (legacy) an already-decoded array. -/
inductive StoredVal where
  | vnull
  | vstr (s : String)
  | varr (items : List JsVal)

/-- The filter body applied to array elements:
typeof item === string and item.trim() truthy; kept elements are returned
untrimmed. -/
def keepTagItem (v : JsVal) : Option String :=
  match v with
  | .jstr s => if jsTrim s = "" then none else some s
  | _ => none

/-- safeJsonParse of the ticket hook: falsy input gives the empty list; an
array keeps its non-blank string elements; a string is parsed as JSON, an
array result is filtered the same way, a string result with non-blank trim
gives its trimmed singleton, any other parse gives the empty list, and a parse
failure treats the whole string as one tag when its trim is non-blank. -/
def safeJsonParse : StoredVal → List String
  | .vnull => []
  | .varr items => items.filterMap keepTagItem
  | .vstr s =>
    if s = "" then []
    else
      match jsonParse s with
      | some (.jarr items) => items.filterMap keepTagItem
      | some (.jstr p) => if jsTrim p = "" then [] else [jsTrim p]
      | some _ => []
      | none => if jsTrim s = "" then [] else [jsTrim s]

/-- safeJsonStringify of the ticket hook: null for the empty array, otherwise
the JSON encoding. -/
def safeJsonStringify (l : List String) : Option String :=
  if l.isEmpty then none else some (jsonStringifyStrArr l)

/-- View a nullable text column value as input to safeJsonParse. -/
def storedOfOpt : Option String → StoredVal
  | none => .vnull
  | some s => .vstr s


/-! ## Ticket data model (useTickets over the Active Issues table) -/

/-- A raw row of the Active Issues table as the Supabase client returns it. -/
structure RawIssue where
  ticket_id : Int
  status : Option String
  created_at : Option String
  date_of_resolved : Option String
  core_team_comment : Option String
  issue_description : Option String
  wallet_address_safe_email : Option String
  product : StoredVal
  category : StoredVal
  severity : Option String

/-- The Ticket interface of the UI. -/
structure Ticket where
  id : String
  ticket_id : String
  status : String
  date_created : String
  date_resolved : Option String
  core_team_comments : String
  issue_description : String
  contact_info : String
  product_tags : List String
  category_tags : List String
  severity : String
  created_at : String
  updated_at : String
deriving DecidableEq

/-- JavaScript x || d for nullable strings: the empty string is falsy. -/
def jsOrStr (v : Option String) (d : String) : String :=
  match v with
  | some s => if s = "" then d else s
  | none => d

/-- JavaScript x || null for nullable strings. -/
def jsOrNull (v : Option String) : Option String :=
  match v with
  | some s => if s = "" then none else some s
  | none => none

/-- The row-to-Ticket transformation the hook applies after every fetch;
now stands for new Date().toISOString() at transformation time. -/
def transformTicket (now : String) (r : RawIssue) : Ticket :=
  { id := toString r.ticket_id
    ticket_id := toString r.ticket_id
    status := jsOrStr r.status "Not Started"
    date_created := jsOrStr r.created_at now
    date_resolved := jsOrNull r.date_of_resolved
    core_team_comments := jsOrStr r.core_team_comment ""
    issue_description := jsOrStr r.issue_description ""
    contact_info := jsOrStr r.wallet_address_safe_email ""
    product_tags := safeJsonParse r.product
    category_tags := safeJsonParse r.category
    severity := jsOrStr r.severity "SEV-3"
    created_at := jsOrStr r.created_at now
    updated_at := jsOrStr r.created_at now }

/-! ## Write-path payloads of the ticket hook -/

/-- The TicketFormData interface; an absent optional ticket_id is the empty
string, which is how the form initialises it. -/
structure TicketFormData where
  ticket_id : String
  status : String
  core_team_comments : String
  issue_description : String
  contact_info : String
  product_tags : List String
  category_tags : List String
  severity : String

/-- The numeric id createTicket and updateTicket store for a trimmed
user-supplied identifier: parseInt when isNumeric accepts it, otherwise the
absolute value of the string hash; none models NaN. -/
def computeTicketId (s : String) : Option Int :=
  if isNumeric s then jsParseInt s else some ((jsHash s).natAbs : Int)

/-- The insert payload of createTicket.  A none ticket_id models NaN, which
the JSON serialisation of the request turns into null. -/
structure InsertRow where
  ticket_id : Option Int
  status : String
  issue_description : String
  core_team_comment : String
  wallet_address_safe_email : String
  product : Option String
  category : Option String
  severity : String
  date_of_resolved : Option String
  created_at : String
deriving DecidableEq

/-- The row createTicket inserts; now is new Date().toISOString() and today
its date part.  The error branch models the thrown validation Error for a
blank identifier. -/
def createTicketInsert (now today : String) (d : TicketFormData) : Except String InsertRow :=
  if d.ticket_id = "" || jsTrim d.ticket_id = "" then
    .error "Ticket ID is required and cannot be empty"
  else
    .ok
      { ticket_id := computeTicketId (jsTrim d.ticket_id)
        status := d.status
        issue_description := d.issue_description
        core_team_comment := d.core_team_comments
        wallet_address_safe_email := d.contact_info
        product := safeJsonStringify d.product_tags
        category := safeJsonStringify d.category_tags
        severity := d.severity
        date_of_resolved := if d.status = "Resolved" then some today else none
        created_at := now }

/-- What an update statement writes to one column: the key can be absent from
the serialised payload (a JavaScript undefined value), write SQL null, or
write a value. -/
inductive ColWrite where
  | absent
  | wnull
  | wstr (s : String)
  | wint (n : Int)
  | wbool (b : Bool)
deriving DecidableEq

/-- Partial TicketFormData as updateTicket receives it: none is an absent
field. -/
structure TicketUpdates where
  ticket_id : Option String
  status : Option String
  core_team_comments : Option String
  issue_description : Option String
  contact_info : Option String
  product_tags : Option (List String)
  category_tags : Option (List String)
  severity : Option String
deriving DecidableEq

/-- Write a nullable-string field through as is; an absent field is dropped
from the serialised payload. -/
def optWrite (v : Option String) : ColWrite :=
  match v with
  | some s => .wstr s
  | none => .absent

/-- The columns updateTicket names in its update payload. -/
structure TicketUpdateData where
  ticket_id : ColWrite
  status : ColWrite
  issue_description : ColWrite
  core_team_comment : ColWrite
  wallet_address_safe_email : ColWrite
  product : ColWrite
  category : ColWrite
  severity : ColWrite
  date_of_resolved : ColWrite
deriving DecidableEq

/-- The update payload updateTicket builds: scalar fields pass through (absent
fields are dropped at serialisation), the tag columns are always written and
fall back to null whenever the tags are absent or encode to null, the numeric
id is recomputed only for a non-blank supplied identifier, and the resolution
date is written only when a status is supplied. -/
def updateTicketPayload (today : String) (u : TicketUpdates) : TicketUpdateData :=
  { ticket_id :=
      match u.ticket_id with
      | some t =>
        if t = "" || jsTrim t = "" then .absent
        else
          match computeTicketId (jsTrim t) with
          | some n => .wint n
          | none => .wnull
      | none => .absent
    status := optWrite u.status
    issue_description := optWrite u.issue_description
    core_team_comment := optWrite u.core_team_comments
    wallet_address_safe_email := optWrite u.contact_info
    product :=
      match u.product_tags with
      | some l =>
        (match safeJsonStringify l with
         | some j => .wstr j
         | none => .wnull)
      | none => .wnull
    category :=
      match u.category_tags with
      | some l =>
        (match safeJsonStringify l with
         | some j => .wstr j
         | none => .wnull)
      | none => .wnull
    severity := optWrite u.severity
    date_of_resolved :=
      match u.status with
      | some s =>
        if s = "Resolved" then .wstr today
        else if s ≠ "" then .wnull
        else .absent
      | none => .absent }

/-- The payload bulkUpdateTicketStatus sends for every selected row. -/
structure BulkStatusData where
  status : String
  date_of_resolved : Option String
deriving DecidableEq

/-- bulkUpdateTicketStatus payload: the new status, and a resolution date
exactly for Resolved. -/
def bulkUpdatePayload (today status : String) : BulkStatusData :=
  { status := status
    date_of_resolved := if status = "Resolved" then some today else none }

/-! ## The search pipeline of the ticket hook -/

/-- The date_range member of SearchFilters. -/
structure DateRange where
  start : Option String
  stop : Option String
deriving DecidableEq

/-- The SearchFilters interface; stop stands for the end bound. -/
structure SearchFilters where
  search_query : Option String
  status : Option (List String)
  severity : Option (List String)
  product_tags : Option (List String)
  category_tags : Option (List String)
  date_range : Option DateRange

/-- Postgres ilike with a pattern that wraps the literal query between two
percent signs: case-insensitive substring match; a null column never
matches.  Wildcard characters inside the query itself are not modelled. -/
def iLike (col : Option String) (q : String) : Bool :=
  match col with
  | none => false
  | some s => hasSub (toLowerL s.data) (toLowerL q.data)

/-- The in-filter of the query builder, applied only when the selection is
present and nonempty; a null column never matches. -/
def inCond (sel : Option (List String)) (col : Option String) : Bool :=
  match sel with
  | some (x :: xs) =>
    (match col with
     | some v => (x :: xs).contains v
     | none => false)
  | _ => true

/-- The or-filter built for a (trimmed) search query: substring match on the
three stored text columns, plus an exact ticket_id match when the query is
numeric.  The eq filter on the integer column is modelled as equality with
the decimal representation. -/
def searchCond (q : String) (r : RawIssue) : Bool :=
  iLike r.issue_description q || iLike r.core_team_comment q ||
  iLike r.wallet_address_safe_email q ||
  (isNumeric q && toString r.ticket_id == q)

/-- The search-query condition, applied only for a truthy search_query. -/
def queryCond (sq : Option String) (r : RawIssue) : Bool :=
  match sq with
  | some q => if q = "" then true else searchCond (jsTrim q) r
  | none => true

/-- The gte bound on created_at, applied only for a truthy start value;
a null created_at never matches.  ISO timestamps compare as strings. -/
def dateStartCond (dr : Option DateRange) (r : RawIssue) : Bool :=
  match dr with
  | some d =>
    (match d.start with
     | some st =>
       if st = "" then true
       else (match r.created_at with
             | some ca => decide (st ≤ ca)
             | none => false)
     | none => true)
  | none => true

/-- The lte bound on created_at, applied only for a truthy end value. -/
def dateStopCond (dr : Option DateRange) (r : RawIssue) : Bool :=
  match dr with
  | some d =>
    (match d.stop with
     | some en =>
       if en = "" then true
       else (match r.created_at with
             | some ca => decide (ca ≤ en)
             | none => false)
     | none => true)
  | none => true

/-- The conjunction of all conditions the built Supabase query applies on the
server before rows reach the client. -/
def serverFilter (f : SearchFilters) (r : RawIssue) : Bool :=
  inCond f.status r.status && inCond f.severity r.severity &&
  queryCond f.search_query r && dateStartCond f.date_range r &&
  dateStopCond f.date_range r

/-- Client-side any-match filter on the decoded product tags, applied only
when the selection is present and nonempty. -/
def prodTagCond (f : SearchFilters) (t : Ticket) : Bool :=
  match f.product_tags with
  | some (x :: xs) => (x :: xs).any (fun tag => t.product_tags.contains tag)
  | _ => true

/-- Client-side any-match filter on the decoded category tags. -/
def catTagCond (f : SearchFilters) (t : Ticket) : Bool :=
  match f.category_tags with
  | some (x :: xs) => (x :: xs).any (fun tag => t.category_tags.contains tag)
  | _ => true

/-- searchTickets of the ticket hook over the rows of the table: the built
query filters rows on the server, the survivors are transformed, and the tag
filters run client-side on the transformed tickets. -/
def searchTicketsModel (now : String) (f : SearchFilters) (rows : List RawIssue) : List Ticket :=
  let fetched := (rows.filter (serverFilter f)).map (transformTicket now)
  let p1 :=
    match f.product_tags with
    | some (x :: xs) => fetched.filter (fun t => (x :: xs).any (fun tag => t.product_tags.contains tag))
    | _ => fetched
  match f.category_tags with
  | some (x :: xs) => p1.filter (fun t => (x :: xs).any (fun tag => t.category_tags.contains tag))
  | _ => p1

/-- Modelled from the spec, for comparison with the code: the claimed filter
predicate on a returned ticket — status and severity membership, tag
any-match, case-insensitive substring of the search query in one of the text
fields of the ticket (identifier, description, comments, contact), and the
creation date inclusively inside the range. -/
def specFilterPred (f : SearchFilters) (t : Ticket) : Bool :=
  (match f.status with
   | some (x :: xs) => (x :: xs).contains t.status
   | _ => true) &&
  (match f.severity with
   | some (x :: xs) => (x :: xs).contains t.severity
   | _ => true) &&
  prodTagCond f t && catTagCond f t &&
  (match f.search_query with
   | some q =>
     if q = "" then true
     else
       hasSub (toLowerL t.issue_description.data) (toLowerL q.data) ||
       hasSub (toLowerL t.core_team_comments.data) (toLowerL q.data) ||
       hasSub (toLowerL t.contact_info.data) (toLowerL q.data) ||
       hasSub (toLowerL t.ticket_id.data) (toLowerL q.data)
   | none => true) &&
  (match f.date_range with
   | some d =>
     (match d.start with
      | some st => if st = "" then true else decide (st ≤ t.date_created)
      | none => true) &&
     (match d.stop with
      | some en => if en = "" then true else decide (t.date_created ≤ en)
      | none => true)
   | none => true)

/-! ## Feedback data model (useFeedback over the feedback_requests table) -/

/-- A raw row of the feedback_requests table. -/
structure RawFeedback where
  id : Int
  ticket_id : Option Int
  platform : Option String
  product : Option String
  description : Option String
  core_team_acknowledgement : Option Bool
  shipped : Option Bool
  shipping_date : Option String
  created_at : Option String

/-- The Feedback interface of the UI. -/
structure Feedback where
  id : String
  ticket_id : Option Int
  platform : String
  product : String
  description : String
  core_team_acknowledgement : Option Bool
  shipped : Option Bool
  shipping_date : Option String
  created_at : String
deriving DecidableEq

/-- JavaScript x || null for a nullable number: zero is falsy. -/
def jsOrNullInt (v : Option Int) : Option Int :=
  match v with
  | some n => if n = 0 then none else some n
  | none => none

/-- The row-to-Feedback transformation of the feedback hook. -/
def transformFeedback (now : String) (r : RawFeedback) : Feedback :=
  { id := toString r.id
    ticket_id := jsOrNullInt r.ticket_id
    platform := jsOrStr r.platform "Intercom"
    product := jsOrStr r.product ""
    description := jsOrStr r.description ""
    core_team_acknowledgement := r.core_team_acknowledgement
    shipped := r.shipped
    shipping_date := jsOrNull r.shipping_date
    created_at := jsOrStr r.created_at now }

/-- The FeedbackFormData interface; empty strings stand for the absent
optional string fields, matching the form initial state. -/
structure FeedbackFormData where
  ticket_id : String
  created_at : String
  platform : String
  product : String
  description : String
  core_team_acknowledgement : Option Bool
  shipped : Option Bool
  shipping_date : String
deriving DecidableEq

/-- The insert payload of createFeedback. -/
structure FeedbackInsertRow where
  ticket_id : Option Int
  platform : String
  product : Option String
  description : Option String
  core_team_acknowledgement : Option Bool
  shipped : Option Bool
  shipping_date : Option String
  created_at : String
deriving DecidableEq

/-- The row createFeedback inserts: the shipping date is stored only when
shipped is true and a date was supplied; nothing auto-populates it here. -/
def createFeedbackInsert (now : String) (d : FeedbackFormData) : FeedbackInsertRow :=
  { ticket_id := if d.ticket_id = "" then none else jsParseInt d.ticket_id
    platform := d.platform
    product := if d.product = "" then none else some d.product
    description := if d.description = "" then none else some d.description
    core_team_acknowledgement := d.core_team_acknowledgement
    shipped := d.shipped
    shipping_date :=
      if d.shipped = some true && d.shipping_date ≠ "" then some d.shipping_date else none
    created_at := if d.created_at = "" then now else d.created_at }

/-- Partial FeedbackFormData as updateFeedback receives it.  The string
fields whose only observable property in the code is truthiness are plain
strings with the empty string for absent. -/
structure FeedbackUpdates where
  ticket_id : String
  platform : Option String
  product : String
  description : String
  core_team_acknowledgement : Option Bool
  shipped : Option Bool
  shipping_date : String
deriving DecidableEq

/-- The columns updateFeedback names in its update payload. -/
structure FeedbackUpdateData where
  ticket_id : ColWrite
  platform : ColWrite
  product : ColWrite
  description : ColWrite
  core_team_acknowledgement : ColWrite
  shipped : ColWrite
  shipping_date : ColWrite
deriving DecidableEq

/-- The update payload updateFeedback builds, including the auto-populated
shipping date for shipped true with no date supplied, and the null written
whenever shipped is not true. -/
def updateFeedbackPayload (today : String) (u : FeedbackUpdates) : FeedbackUpdateData :=
  { ticket_id :=
      if u.ticket_id ≠ "" then
        (match jsParseInt u.ticket_id with
         | some n => .wint n
         | none => .wnull)
      else .wnull
    platform := optWrite u.platform
    product := if u.product ≠ "" then .wstr u.product else .wnull
    description := if u.description ≠ "" then .wstr u.description else .wnull
    core_team_acknowledgement :=
      match u.core_team_acknowledgement with
      | some b => .wbool b
      | none => .absent
    shipped :=
      match u.shipped with
      | some b => .wbool b
      | none => .absent
    shipping_date :=
      if u.shipped = some true && u.shipping_date = "" then .wstr today
      else if u.shipped = some true && u.shipping_date ≠ "" then .wstr u.shipping_date
      else .wnull }

/-- The effect hook of the FeedbackForm component: when shipped is set true
with a blank date the form state receives the current date, and when shipped
is set false the date is cleared. -/
def feedbackFormShippedEffect (today : String) (fd : FeedbackFormData) : FeedbackFormData :=
  if fd.shipped = some true && fd.shipping_date = "" then { fd with shipping_date := today }
  else if fd.shipped = some false then { fd with shipping_date := "" }
  else fd

/-! ## Feedback search pipeline -/

/-- The FeedbackSearchFilters interface. -/
structure FeedbackSearchFilters where
  search_query : Option String
  platform : Option (List String)
  product : Option (List String)
  core_team_acknowledgement : Option Bool
  shipped : Option Bool
  date_range : Option DateRange

/-- Equality filter on a nullable boolean column, applied only when the
filter value is not undefined; a null column never matches. -/
def eqBoolCond (sel : Option Bool) (col : Option Bool) : Bool :=
  match sel with
  | some b =>
    (match col with
     | some v => v = b
     | none => false)
  | none => true

/-- The platform in-filter of searchFeedback. -/
def platformCond (f : FeedbackSearchFilters) (r : RawFeedback) : Bool :=
  inCond f.platform r.platform

/-- The or-filter searchFeedback builds for a truthy (trimmed) query:
description substring always, and exact ticket_id for a query Number accepts. -/
def feedbackSearchCond (q : String) (r : RawFeedback) : Bool :=
  if !jsNumberIsNaN q then
    iLike r.description q ||
    (match r.ticket_id with
     | some n => toString n == q
     | none => false)
  else iLike r.description q

/-- All conditions the searchFeedback query applies on the server. -/
def feedbackServerFilter (f : FeedbackSearchFilters) (r : RawFeedback) : Bool :=
  platformCond f r &&
  eqBoolCond f.core_team_acknowledgement r.core_team_acknowledgement &&
  eqBoolCond f.shipped r.shipped &&
  (match f.search_query with
   | some q => if q = "" then true else feedbackSearchCond (jsTrim q) r
   | none => true) &&
  (match f.date_range with
   | some d =>
     (match d.start with
      | some st =>
        if st = "" then true
        else (match r.created_at with
              | some ca => decide (st ≤ ca)
              | none => false)
      | none => true) &&
     (match d.stop with
      | some en =>
        if en = "" then true
        else (match r.created_at with
              | some ca => decide (ca ≤ en)
              | none => false)
      | none => true)
   | none => true)

/-- searchFeedback of the feedback hook: server filter, transformation, then
the client-side exact product filter. -/
def searchFeedbackModel (now : String) (f : FeedbackSearchFilters) (rows : List RawFeedback) : List Feedback :=
  let fetched := (rows.filter (feedbackServerFilter f)).map (transformFeedback now)
  match f.product with
  | some (x :: xs) => fetched.filter (fun i => (x :: xs).any (fun p => i.product == p))
  | _ => fetched

/-! ## Hook state transitions and error handling -/

/-- The local state of the ticket hook. -/
structure TicketsState where
  tickets : List Ticket
  loading : Bool
  error : Option String
deriving DecidableEq

/-- fetchTickets: on success replace the list, on failure keep it and record
the message; loading ends false either way. -/
def fetchTicketsRun (now : String) (st : TicketsState) (res : Except String (List RawIssue)) : TicketsState :=
  match res with
  | .ok rows => { tickets := rows.map (transformTicket now), loading := false, error := none }
  | .error e => { st with loading := false, error := some e }

/-- createTicket: validation failure or backend failure records the message
and rethrows; success prepends the transformed returned row. -/
def createTicketRun (now today : String) (st : TicketsState) (d : TicketFormData)
    (res : Except String RawIssue) : TicketsState × Except String Ticket :=
  match createTicketInsert now today d with
  | .error msg => ({ st with error := some msg }, .error msg)
  | .ok _ =>
    match res with
    | .error e => ({ st with error := some e }, .error e)
    | .ok row =>
      let t := transformTicket now row
      ({ st with tickets := t :: st.tickets, error := none }, .ok t)

/-- The merge updateTicket applies to the matching ticket from the returned
row. -/
def mergeUpdatedTicket (t : Ticket) (row : RawIssue) : Ticket :=
  { t with
    id := toString row.ticket_id
    ticket_id := toString row.ticket_id
    status := jsOrStr row.status t.status
    issue_description := jsOrStr row.issue_description t.issue_description
    core_team_comments := jsOrStr row.core_team_comment t.core_team_comments
    contact_info := jsOrStr row.wallet_address_safe_email t.contact_info
    product_tags := safeJsonParse row.product
    category_tags := safeJsonParse row.category
    severity := jsOrStr row.severity t.severity
    date_resolved := jsOrNull row.date_of_resolved }

/-- updateTicket: backend failure records the message and rethrows; success
maps the merge over the list at the matching id. -/
def updateTicketRun (st : TicketsState) (id : String)
    (res : Except String RawIssue) : TicketsState × Except String Unit :=
  match res with
  | .error e => ({ st with error := some e }, .error e)
  | .ok row =>
    ({ st with
        error := none
        tickets := st.tickets.map (fun t => if t.id = id then mergeUpdatedTicket t row else t) },
     .ok ())

/-- deleteTicket: success drops the ticket with the given id. -/
def deleteTicketRun (st : TicketsState) (id : String)
    (res : Except String Unit) : TicketsState × Except String Unit :=
  match res with
  | .error e => ({ st with error := some e }, .error e)
  | .ok _ =>
    ({ st with error := none, tickets := st.tickets.filter (fun t => t.id ≠ id) }, .ok ())

/-- bulkDeleteTickets: success keeps exactly the tickets whose id is not in
the selection. -/
def bulkDeleteTicketsRun (st : TicketsState) (ids : List String)
    (res : Except String Unit) : TicketsState × Except String Unit :=
  match res with
  | .error e => ({ st with error := some e }, .error e)
  | .ok _ =>
    ({ st with error := none, tickets := st.tickets.filter (fun t => !ids.contains t.id) }, .ok ())

/-- bulkUpdateTicketStatus: success rewrites status and resolution date on
every selected ticket. -/
def bulkUpdateStatusRun (today : String) (st : TicketsState) (ids : List String) (status : String)
    (res : Except String Unit) : TicketsState × Except String Unit :=
  match res with
  | .error e => ({ st with error := some e }, .error e)
  | .ok _ =>
    ({ st with
        error := none
        tickets := st.tickets.map (fun t =>
          if ids.contains t.id then
            { t with
              status := status
              date_resolved := if status = "Resolved" then some today else none }
          else t) },
     .ok ())

/-- searchTickets: on success replace the list with the filtered result, on
failure keep it and record the message. -/
def searchTicketsRun (now : String) (st : TicketsState) (f : SearchFilters)
    (res : Except String (List RawIssue)) : TicketsState :=
  match res with
  | .ok rows => { tickets := searchTicketsModel now f rows, loading := false, error := none }
  | .error e => { st with loading := false, error := some e }

/-- The tag collection of getUniqueTagsFromSupabase over the fetched column
values: trimmed non-blank decoded tags, deduplicated and sorted. -/
def collectUniqueTags (vals : List StoredVal) : List String :=
  ((((vals.map safeJsonParse).flatten.filterMap
      (fun t => if jsTrim t = "" then none else some (jsTrim t))).eraseDups).mergeSort (· ≤ ·))

/-- getUniqueTagsFromSupabase: a backend failure is caught, logged and
swallowed — the state is untouched, no error message is recorded, and the
empty list is returned. -/
def getUniqueTagsFromSupabaseRun (st : TicketsState)
    (res : Except String (List StoredVal)) : TicketsState × List String :=
  match res with
  | .error _ => (st, [])
  | .ok vals => (st, collectUniqueTags vals)

/-- The local state of the feedback hook. -/
structure FeedbackState where
  feedback : List Feedback
  loading : Bool
  error : Option String
deriving DecidableEq

/-- fetchFeedback. -/
def fetchFeedbackRun (now : String) (st : FeedbackState)
    (res : Except String (List RawFeedback)) : FeedbackState :=
  match res with
  | .ok rows => { feedback := rows.map (transformFeedback now), loading := false, error := none }
  | .error e => { st with loading := false, error := some e }

/-- createFeedback: backend failure records the message and rethrows;
success prepends the transformed returned row. -/
def createFeedbackRun (now : String) (st : FeedbackState)
    (res : Except String RawFeedback) : FeedbackState × Except String Feedback :=
  match res with
  | .error e => ({ st with error := some e }, .error e)
  | .ok row =>
    let fb := transformFeedback now row
    ({ st with feedback := fb :: st.feedback, error := none }, .ok fb)

/-- The merge updateFeedback applies to the matching item from the returned
row. -/
def mergeUpdatedFeedback (i : Feedback) (row : RawFeedback) : Feedback :=
  { i with
    ticket_id := jsOrNullInt row.ticket_id
    platform := jsOrStr row.platform i.platform
    product := jsOrStr row.product ""
    description := jsOrStr row.description ""
    core_team_acknowledgement := row.core_team_acknowledgement
    shipped := row.shipped
    shipping_date := jsOrNull row.shipping_date }

/-- updateFeedback state transition. -/
def updateFeedbackRun (st : FeedbackState) (id : String)
    (res : Except String RawFeedback) : FeedbackState × Except String Unit :=
  match res with
  | .error e => ({ st with error := some e }, .error e)
  | .ok row =>
    ({ st with
        error := none
        feedback := st.feedback.map (fun i => if i.id = id then mergeUpdatedFeedback i row else i) },
     .ok ())

/-- deleteFeedback state transition. -/
def deleteFeedbackRun (st : FeedbackState) (id : String)
    (res : Except String Unit) : FeedbackState × Except String Unit :=
  match res with
  | .error e => ({ st with error := some e }, .error e)
  | .ok _ =>
    ({ st with error := none, feedback := st.feedback.filter (fun i => i.id ≠ id) }, .ok ())

/-- bulkDeleteFeedback state transition. -/
def bulkDeleteFeedbackRun (st : FeedbackState) (ids : List String)
    (res : Except String Unit) : FeedbackState × Except String Unit :=
  match res with
  | .error e => ({ st with error := some e }, .error e)
  | .ok _ =>
    ({ st with error := none, feedback := st.feedback.filter (fun i => !ids.contains i.id) }, .ok ())

/-- searchFeedback state transition. -/
def searchFeedbackRun (now : String) (st : FeedbackState) (f : FeedbackSearchFilters)
    (res : Except String (List RawFeedback)) : FeedbackState :=
  match res with
  | .ok rows => { feedback := searchFeedbackModel now f rows, loading := false, error := none }
  | .error e => { st with loading := false, error := some e }


/-! ## Correctness of the parser on stringifier output -/

theorem strMkData (s : String) : String.mk s.data = s := by
  cases s
  rfl

theorem hexVal_hexLower (n : Nat) (h : n < 16) : hexVal (hexLower n) = some n := by
  interval_cases n <;> rfl

theorem skipWs_cons (c : Char) (cs : List Char) (h : isJsonWs c = false) :
    skipWs (c :: cs) = c :: cs := by
  simp [skipWs, List.dropWhile, h]

theorem hexVal_zero : hexVal '0' = some 0 := by
  rfl

theorem parseStringBody_escChar (c : Char) (tail : List Char) :
    parseStringBody (escChar c ++ tail) = pre c (parseStringBody tail) := by
  by_cases h1 : c = '"'
  · subst h1
    show parseStringBody ('\\' :: '"' :: tail) = _
    rw [parseStringBody.eq_def]
    simp
  by_cases h2 : c = '\\'
  · subst h2
    show parseStringBody ('\\' :: '\\' :: tail) = _
    rw [parseStringBody.eq_def]
    simp
  by_cases h3 : c = '\x08'
  · subst h3
    show parseStringBody ('\\' :: 'b' :: tail) = _
    rw [parseStringBody.eq_def]
    simp
  by_cases h4 : c = '\x09'
  · subst h4
    show parseStringBody ('\\' :: 't' :: tail) = _
    rw [parseStringBody.eq_def]
    simp
  by_cases h5 : c = '\x0a'
  · subst h5
    show parseStringBody ('\\' :: 'n' :: tail) = _
    rw [parseStringBody.eq_def]
    simp
  by_cases h6 : c = '\x0c'
  · subst h6
    show parseStringBody ('\\' :: 'f' :: tail) = _
    rw [parseStringBody.eq_def]
    simp
  by_cases h7 : c = '\x0d'
  · subst h7
    show parseStringBody ('\\' :: 'r' :: tail) = _
    rw [parseStringBody.eq_def]
    simp
  by_cases h8 : c.toNat < 32
  · have hv1 : hexVal (hexLower (c.toNat / 16)) = some (c.toNat / 16) :=
      hexVal_hexLower _ (by omega)
    have hv2 : hexVal (hexLower (c.toNat % 16)) = some (c.toNat % 16) :=
      hexVal_hexLower _ (by omega)
    have hesc : escChar c ++ tail =
        '\\' :: 'u' :: '0' :: '0' :: hexLower (c.toNat / 16) :: hexLower (c.toNat % 16) :: tail := by
      simp [escChar, h1, h2, h3, h4, h5, h6, h7, h8]
    rw [hesc, parseStringBody.eq_def]
    simp [hv1, hv2, hexVal_zero]
    have hcode : c.toNat / 16 * 16 + c.toNat % 16 = c.toNat := by omega
    rw [hcode]
    have hlt : c.toNat < 55296 := by omega
    simp [hlt, Char.ofNat_toNat]
  · have hesc : escChar c ++ tail = c :: tail := by
      simp [escChar, h1, h2, h3, h4, h5, h6, h7, h8]
    rw [hesc, parseStringBody.eq_def]
    simp [h1, h2, h8]

theorem parseStringBody_escList (cs : List Char) (rest : List Char) :
    parseStringBody (escList cs ++ '"' :: rest) = some (cs, rest) := by
  induction cs with
  | nil =>
    show parseStringBody ('"' :: rest) = _
    rw [parseStringBody.eq_def]
    simp
  | cons c cs ih =>
    have : escList (c :: cs) ++ '"' :: rest = escChar c ++ (escList cs ++ '"' :: rest) := by
      simp [escList]
    rw [this, parseStringBody_escChar, ih]
    rfl

theorem encStr_head (s : String) (tail : List Char) :
    encStr s ++ tail = '"' :: (escList s.data ++ '"' :: tail) := by
  simp [encStr]

theorem parseVal_encStr (fuel : Nat) (s : String) (tail : List Char) :
    parseVal (fuel + 1) (encStr s ++ tail) = some (.jstr s, tail) := by
  have hws : skipWs ('"' :: (escList s.data ++ '"' :: tail)) =
      '"' :: (escList s.data ++ '"' :: tail) := skipWs_cons _ _ (by decide)
  rw [encStr_head, parseVal.eq_def]
  simp [hws, parseStringBody_escList, strMkData]

theorem parseElems_enc (l : List String) :
    ∀ (s : String) (rest : List Char) (fuel : Nat), l.length + 2 ≤ fuel →
      parseElems fuel (encElems (s :: l) ++ ']' :: rest) = some ((s :: l).map .jstr, rest) := by
  induction l with
  | nil =>
    intro s rest fuel hf
    obtain ⟨g, rfl⟩ : ∃ g, fuel = g + 2 := ⟨fuel - 2, by omega⟩
    have hws : skipWs (']' :: rest) = ']' :: rest := skipWs_cons _ _ (by decide)
    show parseElems (g + 1 + 1) (encStr s ++ ']' :: rest) = _
    rw [parseElems.eq_def]
    simp [parseVal_encStr, hws]
  | cons s2 l2 ih =>
    intro s rest fuel hf
    have hl : (s2 :: l2).length = l2.length + 1 := rfl
    obtain ⟨g, rfl⟩ : ∃ g, fuel = g + 3 := ⟨fuel - 3, by omega⟩
    have hsplit : encElems (s :: s2 :: l2) ++ ']' :: rest =
        encStr s ++ (',' :: (encElems (s2 :: l2) ++ ']' :: rest)) := by
      simp [encElems]
    rw [hsplit]
    have hws : skipWs (',' :: (encElems (s2 :: l2) ++ ']' :: rest)) =
        ',' :: (encElems (s2 :: l2) ++ ']' :: rest) := skipWs_cons _ _ (by decide)
    show parseElems (g + 2 + 1) _ = _
    rw [parseElems.eq_def]
    have hiv : parseVal (g + 1 + 1) (encStr s ++ (',' :: (encElems (s2 :: l2) ++ ']' :: rest))) =
        some (.jstr s, ',' :: (encElems (s2 :: l2) ++ ']' :: rest)) := parseVal_encStr _ _ _
    have hie : parseElems (g + 2) (encElems (s2 :: l2) ++ ']' :: rest) =
        some ((s2 :: l2).map .jstr, rest) := ih s2 rest (g + 2) (by simpa using hf)
    simp [hiv, hws, hie]

theorem encElems_length_ge (l : List String) : l.length ≤ (encElems l).length := by
  induction l with
  | nil => simp [encElems]
  | cons s l2 ih =>
    cases l2 with
    | nil => simp [encElems, encStr]
    | cons s2 l3 =>
      have : encElems (s :: s2 :: l3) = encStr s ++ (',' :: encElems (s2 :: l3)) := rfl
      rw [this]
      simp only [List.length_append, List.length_cons]
      have hs : 1 ≤ (encStr s).length := by simp [encStr]
      have hb : (s2 :: l3).length = l3.length + 1 := rfl
      omega

theorem jsonParse_encArr (l : List String) :
    jsonParse (jsonStringifyStrArr l) = some (.jarr (l.map .jstr)) := by
  have hdata : (jsonStringifyStrArr l).data = encArr l := rfl
  rw [jsonParse, hdata]
  have hlen : (encArr l).length = (encElems l).length + 2 := by
    simp [encArr]
  cases l with
  | nil =>
    rfl
  | cons s l2 =>
    have hne : l2.length + 2 ≤ 2 * (encArr (s :: l2)).length + 1 := by
      have h1 := encElems_length_ge (s :: l2)
      have h2 : (s :: l2).length = l2.length + 1 := rfl
      omega
    obtain ⟨g, hg⟩ : ∃ g, 2 * (encArr (s :: l2)).length + 2 = g + 1 :=
      ⟨2 * (encArr (s :: l2)).length + 1, rfl⟩
    rw [hg, parseVal.eq_def]
    have harr : encArr (s :: l2) = '[' :: (encElems (s :: l2) ++ [']']) := rfl
    have hws1 : skipWs ('[' :: (encElems (s :: l2) ++ [']'])) =
        '[' :: (encElems (s :: l2) ++ [']']) := skipWs_cons _ _ (by decide)
    have hhead : ∃ t, encElems (s :: l2) = '"' :: t := by
      cases l2 with
      | nil => exact ⟨escList s.data ++ ['"'], rfl⟩
      | cons s2 l3 => exact ⟨(escList s.data ++ ['"']) ++ (',' :: encElems (s2 :: l3)), by simp [encElems, encStr]⟩
    obtain ⟨t, ht⟩ := hhead
    have hws2 : skipWs (encElems (s :: l2) ++ [']']) = '"' :: (t ++ [']']) := by
      rw [ht]
      exact skipWs_cons _ _ (by decide)
    have happ : encElems (s :: l2) ++ ([] : List Char) ++ [']'] = encElems (s :: l2) ++ [']'] := by simp
    have hpe : parseElems g (encElems (s :: l2) ++ (']' :: [])) =
        some ((s :: l2).map .jstr, []) := by
      apply parseElems_enc
      omega
    have hpe2 : parseElems g ('"' :: (t ++ [']'])) = some ((s :: l2).map .jstr, []) := by
      have heq : '"' :: (t ++ [']']) = encElems (s :: l2) ++ (']' :: []) := by
        rw [ht]
        simp
      rw [heq]
      exact hpe
    simp only [harr, hws1]
    simp only [hws2]
    simp [hpe2, skipWs]


theorem filterMap_keepTag (l : List String)
    (h : ∀ s ∈ l, s ≠ "" ∧ jsTrim s = s) :
    (l.map JsVal.jstr).filterMap keepTagItem = l := by
  induction l with
  | nil => rfl
  | cons s l2 ih =>
    have hs := h s (by simp)
    have htr : ¬ jsTrim s = "" := by
      rw [hs.2]
      exact hs.1
    have ih2 := ih (fun x hx => h x (by simp [hx]))
    simp only [List.map_cons, List.filterMap_cons, keepTagItem, if_neg htr]
    rw [ih2]

theorem encArr_ne_nil (l : List String) : jsonStringifyStrArr l ≠ "" := by
  intro h
  have hd : (jsonStringifyStrArr l).data = ([] : List Char) := by
    rw [h]
  have h2 : (jsonStringifyStrArr l).data = '[' :: (encElems l ++ [']']) := rfl
  rw [h2] at hd
  exact absurd hd (by simp)

/-- C1: safeJsonStringify returns null exactly for the empty tag list and the
JSON array encoding otherwise, and safeJsonParse decodes that encoding back to
the original list whenever every tag is a non-empty trimmed string;
safeJsonParse of null is the empty list. -/
theorem tag_codec_round_trip :
    (∀ l : List String, safeJsonStringify l = none ↔ l = []) ∧
    (∀ l : List String, l ≠ [] → safeJsonStringify l = some (jsonStringifyStrArr l)) ∧
    (∀ l : List String, (∀ s ∈ l, s ≠ "" ∧ jsTrim s = s) →
      safeJsonParse (storedOfOpt (safeJsonStringify l)) = l) ∧
    safeJsonParse .vnull = [] := by
  refine ⟨?_, ?_, ?_, rfl⟩
  · intro l
    constructor
    · intro h
      by_contra hne
      simp [safeJsonStringify, hne] at h
    · intro h
      subst h
      rfl
  · intro l hne
    simp [safeJsonStringify, hne]
  · intro l h
    cases l with
    | nil => rfl
    | cons s l2 =>
      have hne : (s :: l2) ≠ ([] : List String) := by simp
      have hstr : safeJsonStringify (s :: l2) = some (jsonStringifyStrArr (s :: l2)) := by
        simp [safeJsonStringify]
      rw [hstr]
      show safeJsonParse (.vstr (jsonStringifyStrArr (s :: l2))) = s :: l2
      rw [safeJsonParse]
      rw [if_neg (encArr_ne_nil (s :: l2))]
      rw [jsonParse_encArr (s :: l2)]
      exact filterMap_keepTag (s :: l2) h

/-- Witness for tag_codec_round_trip at a concrete two-element tag list. -/
theorem tag_codec_round_trip_witness :
    safeJsonParse (storedOfOpt (safeJsonStringify ["alpha", "be ta"])) = ["alpha", "be ta"] :=
  tag_codec_round_trip.2.2.1 ["alpha", "be ta"] (by decide)

theorem dropWhile_head_false {p : Char → Bool} :
    ∀ {cs c t}, List.dropWhile p cs = c :: t → p c = false := by
  intro cs
  induction cs with
  | nil =>
    intro c t h
    simp [List.dropWhile] at h
  | cons a as ih =>
    intro c t h
    by_cases hp : p a
    · rw [List.dropWhile_cons] at h
      simp [hp] at h
      exact ih h
    · rw [List.dropWhile_cons] at h
      simp [hp] at h
      rw [← h.1]
      simp [hp]

theorem mem_dropWhile_sub {p : Char → Bool} :
    ∀ {cs a}, a ∈ List.dropWhile p cs → a ∈ cs := by
  intro cs
  induction cs with
  | nil =>
    intro a h
    simp [List.dropWhile] at h
  | cons b bs ih =>
    intro a h
    rw [List.dropWhile_cons] at h
    by_cases hp : p b
    · simp only [hp, if_true] at h
      exact List.mem_cons_of_mem _ (ih h)
    · simp only [hp, if_false] at h
      exact h

theorem dropWhile_ne_nil_of_exists {p : Char → Bool} :
    ∀ {cs}, (∃ c ∈ cs, p c = false) → List.dropWhile p cs ≠ [] := by
  intro cs
  induction cs with
  | nil =>
    intro h
    obtain ⟨c, hc, _⟩ := h
    simp at hc
  | cons b bs ih =>
    intro h
    rw [List.dropWhile_cons]
    by_cases hp : p b
    · simp only [hp, if_true]
      apply ih
      obtain ⟨c, hc, hpc⟩ := h
      rcases List.mem_cons.mp hc with rfl | hmem
      · rw [hp] at hpc
        cases hpc
      · exact ⟨c, hmem, hpc⟩
    · simp [hp]

theorem mem_trim_sub {a : Char} {cs : List Char} (h : a ∈ jsTrimChars cs) : a ∈ cs := by
  unfold jsTrimChars at h
  rw [List.mem_reverse] at h
  have h2 := mem_dropWhile_sub h
  rw [List.mem_reverse] at h2
  exact mem_dropWhile_sub h2

theorem trim_ne_nil_has_non_ws {cs : List Char} (h : jsTrimChars cs ≠ []) :
    ∃ c ∈ jsTrimChars cs, jsWhitespaceB c = false := by
  unfold jsTrimChars at h ⊢
  cases hB : List.dropWhile jsWhitespaceB (List.dropWhile jsWhitespaceB cs).reverse with
  | nil =>
    rw [hB] at h
    simp at h
  | cons b bt =>
    refine ⟨b, ?_, dropWhile_head_false hB⟩
    simp

theorem trim_ne_nil_of_exists {cs : List Char} (h : ∃ c ∈ cs, jsWhitespaceB c = false) :
    jsTrimChars cs ≠ [] := by
  unfold jsTrimChars
  have hA : List.dropWhile jsWhitespaceB cs ≠ [] := dropWhile_ne_nil_of_exists h
  cases hAe : List.dropWhile jsWhitespaceB cs with
  | nil => exact absurd hAe hA
  | cons a at' =>
    have hpa : jsWhitespaceB a = false := dropWhile_head_false hAe
    have hex : ∃ c ∈ (a :: at').reverse, jsWhitespaceB c = false := ⟨a, by simp, hpa⟩
    have hB := dropWhile_ne_nil_of_exists hex
    intro hcon
    apply hB
    have := congrArg List.reverse hcon
    simpa using this

theorem trimmed_trim_ne_empty {s : String} (h : jsTrim s ≠ "") : jsTrim (jsTrim s) ≠ "" := by
  have hd : (jsTrim s).data = jsTrimChars s.data := rfl
  have hne : jsTrimChars s.data ≠ [] := by
    intro hc
    apply h
    show String.mk (jsTrimChars s.data) = String.mk []
    rw [hc]
  have hex := trim_ne_nil_has_non_ws hne
  have : jsTrimChars (jsTrim s).data ≠ [] := by
    rw [hd]
    exact trim_ne_nil_of_exists hex
  intro hc
  apply this
  have := congrArg String.data hc
  exact this

/-- C9: the tag decoder is total — modelled as a total function it never
throws for null, arrays of arbitrary values, or arbitrary strings — and every
element of its result is a string whose trim is non-blank, hence contains a
non-whitespace character. -/
theorem safeJsonParse_total_non_blank :
    ∀ (v : StoredVal), ∀ s ∈ safeJsonParse v, jsTrim s ≠ "" ∧ ∃ c ∈ s.data, jsWhitespaceB c = false := by
  have hfm : ∀ (items : List JsVal), ∀ s ∈ items.filterMap keepTagItem, jsTrim s ≠ "" := by
    intro items s hs
    rw [List.mem_filterMap] at hs
    obtain ⟨v, _, hv⟩ := hs
    cases v with
    | jstr s2 =>
      by_cases ht : jsTrim s2 = ""
      · simp [keepTagItem, ht] at hv
      · simp [keepTagItem, ht] at hv
        rw [← hv]
        exact ht
    | jnull => simp [keepTagItem] at hv
    | jbool b => simp [keepTagItem] at hv
    | jnum t => simp [keepTagItem] at hv
    | jarr xs => simp [keepTagItem] at hv
    | jobj ms => simp [keepTagItem] at hv
    | jundef => simp [keepTagItem] at hv
  have hany : ∀ s : String, jsTrim s ≠ "" → ∃ c ∈ s.data, jsWhitespaceB c = false := by
    intro s h
    have hne : jsTrimChars s.data ≠ [] := by
      intro hc
      apply h
      show String.mk (jsTrimChars s.data) = String.mk []
      rw [hc]
    obtain ⟨c, hc, hpc⟩ := trim_ne_nil_has_non_ws hne
    exact ⟨c, mem_trim_sub hc, hpc⟩
  intro v s hs
  have hmain : jsTrim s ≠ "" := by
    cases v with
    | vnull => simp [safeJsonParse] at hs
    | varr items => exact hfm items s hs
    | vstr str =>
      rw [safeJsonParse] at hs
      by_cases he : str = ""
      · simp [he] at hs
      rw [if_neg he] at hs
      cases hp : jsonParse str with
      | none =>
        rw [hp] at hs
        by_cases ht : jsTrim str = ""
        · simp [ht] at hs
        · simp [ht] at hs
          rw [hs]
          exact trimmed_trim_ne_empty ht
      | some jv =>
        rw [hp] at hs
        cases jv with
        | jarr items => exact hfm items s hs
        | jstr p =>
          by_cases ht : jsTrim p = ""
          · simp [ht] at hs
          · simp [ht] at hs
            rw [hs]
            exact trimmed_trim_ne_empty ht
        | jnull => simp at hs
        | jbool b => simp at hs
        | jnum t => simp at hs
        | jobj ms => simp at hs
        | jundef => simp at hs
  exact ⟨hmain, hany s hmain⟩

/-- Witness for safeJsonParse_total_non_blank at a concrete stored string. -/
theorem safeJsonParse_total_non_blank_witness :
    jsTrim "hi" ≠ "" ∧ ∃ c ∈ "hi".data, jsWhitespaceB c = false :=
  safeJsonParse_total_non_blank (.vstr "  hi  ") "hi" (by decide)

/-! ## C5: decoder tolerance for legacy values -/

/-- String extraction from a decoded JSON value. -/
def jsStrOf (v : JsVal) : Option String :=
  match v with
  | .jstr s => some s
  | _ => none

/-- C5 counterexample: the stored value 123 is a plain non-array string with
non-whitespace content, yet safeJsonParse returns the empty list, not the
trimmed singleton, because the string parses as a JSON number and the
number branch falls through to the empty list. -/
theorem safeJsonParse_plain_number_not_singleton :
    safeJsonParse (.vstr "123") = [] ∧
    safeJsonParse (.vstr "123") ≠ ["123"] ∧
    jsTrim "123" = "123" ∧ "123" ≠ "" ∧
    (match jsonParse "123" with
     | some (.jarr _) => true
     | _ => false) = false := by
  refine ⟨by decide, by decide, by decide, by decide, by decide⟩

theorem filterMap_keep_eq_filter (items : List JsVal) :
    items.filterMap keepTagItem =
      (items.filterMap jsStrOf).filter (fun s => !(jsTrim s = "")) := by
  induction items with
  | nil => rfl
  | cons v vs ih =>
    cases v with
    | jstr s =>
      by_cases ht : jsTrim s = ""
      · simp [keepTagItem, jsStrOf, List.filterMap_cons, List.filter_cons, ht, ih]
      · simp [keepTagItem, jsStrOf, List.filterMap_cons, List.filter_cons, ht, ih]
    | jnull => simpa [keepTagItem, jsStrOf, List.filterMap_cons] using ih
    | jbool b => simpa [keepTagItem, jsStrOf, List.filterMap_cons] using ih
    | jnum t => simpa [keepTagItem, jsStrOf, List.filterMap_cons] using ih
    | jarr xs => simpa [keepTagItem, jsStrOf, List.filterMap_cons] using ih
    | jobj ms => simpa [keepTagItem, jsStrOf, List.filterMap_cons] using ih
    | jundef => simpa [keepTagItem, jsStrOf, List.filterMap_cons] using ih

/-- C5 amended: a stored array keeps exactly its string elements with
non-blank trim; a stored string that is valid JSON decodes by case on the
parsed value (array filtered the same way, string to its trimmed singleton
when non-blank, anything else to the empty list), and only a stored string
that is not valid JSON is treated as a single tag, trimmed, when its content
is non-blank. -/
theorem safeJsonParse_legacy_cases :
    (∀ items : List JsVal,
      safeJsonParse (.varr items) =
        (items.filterMap jsStrOf).filter (fun s => !(jsTrim s = ""))) ∧
    (∀ s : String, s ≠ "" → jsonParse s = none → jsTrim s ≠ "" →
      safeJsonParse (.vstr s) = [jsTrim s]) ∧
    (∀ s : String, s ≠ "" → jsonParse s = none → jsTrim s = "" →
      safeJsonParse (.vstr s) = []) ∧
    (∀ (s : String) (items : List JsVal), s ≠ "" → jsonParse s = some (.jarr items) →
      safeJsonParse (.vstr s) =
        (items.filterMap jsStrOf).filter (fun t => !(jsTrim t = ""))) ∧
    (∀ (s p : String), s ≠ "" → jsonParse s = some (.jstr p) →
      safeJsonParse (.vstr s) = if jsTrim p = "" then [] else [jsTrim p]) ∧
    (∀ (s : String) (v : JsVal), s ≠ "" → jsonParse s = some v → jsStrOf v = none →
      (match v with | .jarr _ => false | _ => true) = true →
      safeJsonParse (.vstr s) = []) := by
  refine ⟨?_, ?_, ?_, ?_, ?_, ?_⟩
  · intro items
    show safeJsonParse (.varr items) = _
    rw [safeJsonParse]
    exact filterMap_keep_eq_filter items
  · intro s hne hp ht
    rw [safeJsonParse, if_neg hne, hp]
    simp [ht]
  · intro s hne hp ht
    rw [safeJsonParse, if_neg hne, hp]
    simp [ht]
  · intro s items hne hp
    rw [safeJsonParse, if_neg hne, hp]
    exact filterMap_keep_eq_filter items
  · intro s p hne hp
    rw [safeJsonParse, if_neg hne, hp]
  · intro s v hne hp hstr harr
    rw [safeJsonParse, if_neg hne, hp]
    cases v with
    | jstr p => simp [jsStrOf] at hstr
    | jarr xs => simp at harr
    | jnull => rfl
    | jbool b => rfl
    | jnum t => rfl
    | jobj ms => rfl
    | jundef => rfl

/-- Witness for safeJsonParse_legacy_cases: a plain non-JSON string decodes to
its trimmed singleton, and a legacy array keeps its non-blank strings. -/
theorem safeJsonParse_legacy_cases_witness :
    safeJsonParse (.vstr " hello cx ") = [jsTrim " hello cx "] ∧
    safeJsonParse (.varr [.jstr "a", .jnum "7", .jstr "  "]) =
      (([.jstr "a", .jnum "7", .jstr "  "] : List JsVal).filterMap jsStrOf).filter
        (fun s => !(jsTrim s = "")) :=
  ⟨safeJsonParse_legacy_cases.2.1 " hello cx " (by decide) (by rfl) (by decide),
   safeJsonParse_legacy_cases.1 [.jstr "a", .jnum "7", .jstr "  "]⟩

/-! ## C2: search filter composition -/

theorem searchTicketsModel_eq (now : String) (f : SearchFilters) (rows : List RawIssue) :
    searchTicketsModel now f rows =
      ((rows.filter (serverFilter f)).map (transformTicket now)).filter
        (fun t => prodTagCond f t && catTagCond f t) := by
  unfold searchTicketsModel prodTagCond catTagCond
  cases hp : f.product_tags with
  | none =>
    cases hc : f.category_tags with
    | none => simp
    | some l =>
      cases l with
      | nil => simp
      | cons x xs => simp
  | some l =>
    cases l with
    | nil =>
      cases hc : f.category_tags with
      | none => simp
      | some l2 =>
        cases l2 with
        | nil => simp
        | cons y ys => simp
    | cons x xs =>
      cases hc : f.category_tags with
      | none => simp
      | some l2 =>
        cases l2 with
        | nil => simp
        | cons y ys =>
          simp [List.filter_filter]
          congr 1
          funext a
          rw [Bool.and_comm]

/-- The row of the C2 counterexample: a stored ticket whose status column is
null. -/
def nullStatusRow : RawIssue :=
  { ticket_id := 7
    status := none
    created_at := some "2024-01-01T00:00:00Z"
    date_of_resolved := none
    core_team_comment := none
    issue_description := some "help"
    wallet_address_safe_email := none
    product := .vnull
    category := .vnull
    severity := none }

/-- The filter set of the C2 counterexample: only the status set is selected. -/
def statusOnlyFilters : SearchFilters :=
  { search_query := none
    status := some ["Not Started"]
    severity := none
    product_tags := none
    category_tags := none
    date_range := none }

/-- C2 counterexample: with status filter Not Started and a stored row whose
status is null, searchTickets returns nothing, while the transformed ticket
has status Not Started and satisfies the claimed client-side predicate — the
membership tests run against the raw row on the server, not against the
defaulted ticket, so the result is not the claimed filter of the fetched
tickets. -/
theorem searchTickets_not_spec_filter :
    searchTicketsModel "2024-06-01T00:00:00Z" statusOnlyFilters [nullStatusRow] = [] ∧
    specFilterPred statusOnlyFilters
      (transformTicket "2024-06-01T00:00:00Z" nullStatusRow) = true ∧
    searchTicketsModel "2024-06-01T00:00:00Z" statusOnlyFilters [nullStatusRow] ≠
      ([nullStatusRow].map (transformTicket "2024-06-01T00:00:00Z")).filter
        (specFilterPred statusOnlyFilters) := by
  refine ⟨by decide, by decide, by decide⟩

/-- C2 amended: a ticket is returned by searchTickets exactly when it is the
transform of a stored row that passes the server-side conditions — status and
severity set membership and the inclusive created_at bounds checked on the raw
row (null never matches), and the trimmed search query matched
case-insensitively as a substring of the three stored text columns or, for a
numeric query, as the exact numeric ticket_id — and the transformed ticket
passes the client-side product and category any-match filters. -/
theorem searchTickets_mem_iff (now : String) (f : SearchFilters) (rows : List RawIssue)
    (t : Ticket) :
    t ∈ searchTicketsModel now f rows ↔
      ∃ r, r ∈ rows ∧ serverFilter f r = true ∧ t = transformTicket now r ∧
        prodTagCond f t = true ∧ catTagCond f t = true := by
  rw [searchTicketsModel_eq]
  simp only [List.mem_filter, List.mem_map, List.mem_filter, Bool.and_eq_true]
  constructor
  · rintro ⟨⟨r, ⟨hr, hsf⟩, hteq⟩, hpt, hct⟩
    exact ⟨r, hr, hsf, hteq.symm, hpt, hct⟩
  · rintro ⟨r, hr, hsf, hteq, hpt, hct⟩
    exact ⟨⟨r, ⟨hr, hsf⟩, hteq.symm⟩, hpt, hct⟩

/-! ## C3: resolution-date invariant on the write paths -/

/-- C3: on every ticket write path the stored resolution date is non-null
exactly when the written status is Resolved — createTicket writes it in the
insert, updateTicket writes it whenever a (non-empty) status is supplied, and
bulkUpdateTicketStatus writes it for every selected row. -/
theorem resolution_date_iff_resolved :
    (∀ (now today : String) (d : TicketFormData) (r : InsertRow),
      createTicketInsert now today d = .ok r →
        (r.date_of_resolved ≠ none ↔ d.status = "Resolved")) ∧
    (∀ (today : String) (u : TicketUpdates) (s : String), u.status = some s → s ≠ "" →
      (updateTicketPayload today u).date_of_resolved =
        (if s = "Resolved" then .wstr today else .wnull)) ∧
    (∀ (today status : String),
      (bulkUpdatePayload today status).date_of_resolved ≠ none ↔ status = "Resolved") := by
  refine ⟨?_, ?_, ?_⟩
  · intro now today d r h
    rw [createTicketInsert] at h
    by_cases hv : d.ticket_id = "" || jsTrim d.ticket_id = ""
    · rw [if_pos hv] at h
      cases h
    · rw [if_neg hv] at h
      cases h
      by_cases hs : d.status = "Resolved"
      · simp [hs]
      · simp [hs]
  · intro today u s hst hne
    rw [updateTicketPayload]
    simp only [hst]
    by_cases hs : s = "Resolved"
    · simp [hs]
    · simp [hs, hne]
  · intro today status
    rw [bulkUpdatePayload]
    by_cases hs : status = "Resolved"
    · simp [hs]
    · simp [hs]

/-- Witness for resolution_date_iff_resolved on all three write paths at
concrete inputs. -/
theorem resolution_date_iff_resolved_witness :
    ((InsertRow.mk (some 12) "Resolved" "d" "c" "w" none none "SEV-2"
        (some "2026-02-03") "2026-02-03T00:00:00Z").date_of_resolved ≠ none ↔
      ("Resolved" : String) = "Resolved") ∧
    (updateTicketPayload "2026-02-03"
        { ticket_id := none, status := some "In Dev", core_team_comments := none,
          issue_description := none, contact_info := none, product_tags := none,
          category_tags := none, severity := none }).date_of_resolved =
      (if ("In Dev" : String) = "Resolved" then .wstr "2026-02-03" else .wnull) ∧
    ((bulkUpdatePayload "2026-02-03" "In QA").date_of_resolved ≠ none ↔
      ("In QA" : String) = "Resolved") := by
  refine ⟨?_, ?_, ?_⟩
  · exact resolution_date_iff_resolved.1 "2026-02-03T00:00:00Z" "2026-02-03"
      { ticket_id := "12", status := "Resolved", core_team_comments := "c",
        issue_description := "d", contact_info := "w", product_tags := [],
        category_tags := [], severity := "SEV-2" } _ (by rfl)
  · exact resolution_date_iff_resolved.2.1 "2026-02-03"
      { ticket_id := none, status := some "In Dev", core_team_comments := none,
        issue_description := none, contact_info := none, product_tags := none,
        category_tags := none, severity := none } "In Dev" rfl (by decide)
  · exact resolution_date_iff_resolved.2.2 "2026-02-03" "In QA"

/-! ## C4: feedback shipping-date handling -/

/-- The form data of the C4 counterexample: shipped true, no shipping date. -/
def shippedNoDateForm : FeedbackFormData :=
  { ticket_id := ""
    created_at := "2026-01-01"
    platform := "Discord"
    product := ""
    description := ""
    core_team_acknowledgement := none
    shipped := some true
    shipping_date := "" }

/-- C4 counterexample: createFeedback is a feedback write path, yet with
shipped true and no supplied shipping date it stores null — it never
auto-populates the current date; only updateFeedback (and the form state
effect) do. -/
theorem createFeedback_no_autopopulate :
    (createFeedbackInsert "2026-01-01T00:00:00Z" shippedNoDateForm).shipping_date = none ∧
    shippedNoDateForm.shipped = some true ∧ shippedNoDateForm.shipping_date = "" := by
  refine ⟨by decide, by decide, by decide⟩

/-- C4 amended: updateFeedback auto-populates the shipping date with the
current date when shipped is true and no date is supplied, and writes null
whenever shipped is not true; createFeedback stores only a supplied date when
shipped is true and null otherwise (auto-population on creation happens in
the FeedbackForm state effect, which fills the current date when shipped
flips true with a blank date and clears it when shipped is false). -/
theorem shipping_date_handling :
    (∀ (today : String) (u : FeedbackUpdates), u.shipped = some true → u.shipping_date = "" →
      (updateFeedbackPayload today u).shipping_date = .wstr today) ∧
    (∀ (today : String) (u : FeedbackUpdates), u.shipped = some true → u.shipping_date ≠ "" →
      (updateFeedbackPayload today u).shipping_date = .wstr u.shipping_date) ∧
    (∀ (today : String) (u : FeedbackUpdates), u.shipped ≠ some true →
      (updateFeedbackPayload today u).shipping_date = .wnull) ∧
    (∀ (now : String) (d : FeedbackFormData), d.shipped = some true → d.shipping_date ≠ "" →
      (createFeedbackInsert now d).shipping_date = some d.shipping_date) ∧
    (∀ (now : String) (d : FeedbackFormData), d.shipped = some true → d.shipping_date = "" →
      (createFeedbackInsert now d).shipping_date = none) ∧
    (∀ (now : String) (d : FeedbackFormData), d.shipped ≠ some true →
      (createFeedbackInsert now d).shipping_date = none) ∧
    (∀ (today : String) (fd : FeedbackFormData), fd.shipped = some true → fd.shipping_date = "" →
      (feedbackFormShippedEffect today fd).shipping_date = today) ∧
    (∀ (today : String) (fd : FeedbackFormData), fd.shipped = some false →
      (feedbackFormShippedEffect today fd).shipping_date = "") := by
  refine ⟨?_, ?_, ?_, ?_, ?_, ?_, ?_, ?_⟩
  · intro today u hs hd
    simp [updateFeedbackPayload, hs, hd]
  · intro today u hs hd
    simp [updateFeedbackPayload, hs, hd]
  · intro today u hs
    simp [updateFeedbackPayload, hs]
  · intro now d hs hd
    simp [createFeedbackInsert, hs, hd]
  · intro now d hs hd
    simp [createFeedbackInsert, hs, hd]
  · intro now d hs
    simp [createFeedbackInsert, hs]
  · intro today fd hs hd
    simp [feedbackFormShippedEffect, hs, hd]
  · intro today fd hs
    by_cases hd : fd.shipping_date = ""
    · simp [feedbackFormShippedEffect, hs, hd]
    · simp [feedbackFormShippedEffect, hs, hd]

/-- Witness for shipping_date_handling at concrete inputs: the update path
auto-populates, the update path clears for shipped false, and the form effect
fills the date. -/
theorem shipping_date_handling_witness :
    (updateFeedbackPayload "2026-01-05"
        { ticket_id := "", platform := none, product := "", description := "",
          core_team_acknowledgement := none, shipped := some true,
          shipping_date := "" }).shipping_date = .wstr "2026-01-05" ∧
    (updateFeedbackPayload "2026-01-05"
        { ticket_id := "", platform := none, product := "", description := "",
          core_team_acknowledgement := none, shipped := some false,
          shipping_date := "2025-12-31" }).shipping_date = .wnull ∧
    (feedbackFormShippedEffect "2026-01-05" shippedNoDateForm).shipping_date = "2026-01-05" := by
  refine ⟨?_, ?_, ?_⟩
  · exact shipping_date_handling.1 "2026-01-05" _ rfl rfl
  · exact shipping_date_handling.2.2.1 "2026-01-05"
      { ticket_id := "", platform := none, product := "", description := "",
        core_team_acknowledgement := none, shipped := some false,
        shipping_date := "2025-12-31" } (by decide)
  · exact shipping_date_handling.2.2.2.2.2.2.1 "2026-01-05" shippedNoDateForm rfl rfl

/-! ## C6: hash fallback for non-numeric identifiers -/

/-- C6: for a non-numeric (non-blank) identifier both createTicket and
updateTicket store the absolute value of the multiply-shift accumulate hash
folded over the characters from 0, and the surrogate is not injective: the
distinct non-numeric identifiers Aa and BB collide. -/
theorem hash_id_fallback_and_collision :
    (∀ (now today : String) (d : TicketFormData),
      isNumeric (jsTrim d.ticket_id) = false → d.ticket_id ≠ "" → jsTrim d.ticket_id ≠ "" →
        ∃ r, createTicketInsert now today d = .ok r ∧
          r.ticket_id = some ((jsHash (jsTrim d.ticket_id)).natAbs : Int)) ∧
    (∀ (today : String) (u : TicketUpdates) (t : String),
      u.ticket_id = some t → t ≠ "" → jsTrim t ≠ "" → isNumeric (jsTrim t) = false →
        (updateTicketPayload today u).ticket_id = .wint ((jsHash (jsTrim t)).natAbs : Int)) ∧
    ((jsHash "Aa").natAbs = (jsHash "BB").natAbs ∧ ("Aa" : String) ≠ "BB" ∧
      isNumeric "Aa" = false ∧ isNumeric "BB" = false) := by
  refine ⟨?_, ?_, by decide, by decide, by decide, by decide⟩
  · intro now today d hnum hne htne
    rw [createTicketInsert]
    have hcond : (d.ticket_id = "" || jsTrim d.ticket_id = "") = false := by
      simp [hne, htne]
    rw [hcond]
    simp only [Bool.false_eq_true, if_false]
    refine ⟨_, rfl, ?_⟩
    simp [computeTicketId, hnum]
  · intro today u t ht hne htne hnum
    rw [updateTicketPayload]
    simp only [ht]
    have hcond : (t = "" || jsTrim t = "") = false := by
      simp [hne, htne]
    simp [hcond, computeTicketId, hnum]

/-- Witness for hash_id_fallback_and_collision: the identifier Aa hashes to
2112 on both write paths. -/
theorem hash_id_fallback_and_collision_witness :
    (∃ r, createTicketInsert "2026-01-01T00:00:00Z" "2026-01-01"
        { ticket_id := "Aa", status := "Not Started", core_team_comments := "",
          issue_description := "", contact_info := "", product_tags := [],
          category_tags := [], severity := "SEV-3" } = .ok r ∧
        r.ticket_id = some ((jsHash (jsTrim "Aa")).natAbs : Int)) ∧
    (updateTicketPayload "2026-01-01"
        { ticket_id := some "BB", status := none, core_team_comments := none,
          issue_description := none, contact_info := none, product_tags := none,
          category_tags := none, severity := none }).ticket_id =
      .wint ((jsHash (jsTrim "BB")).natAbs : Int) := by
  constructor
  · exact hash_id_fallback_and_collision.1 "2026-01-01T00:00:00Z" "2026-01-01" _
      (by decide) (by decide) (by decide)
  · exact hash_id_fallback_and_collision.2.1 "2026-01-01"
      { ticket_id := some "BB", status := none, core_team_comments := none,
        issue_description := none, contact_info := none, product_tags := none,
        category_tags := none, severity := none } "BB" rfl (by decide) (by decide) (by decide)

/-! ## C7: error handling across the hooks -/

/-- C7 counterexample: getUniqueTagsFromSupabase is an operation of the
ticket hook whose backend call can fail, yet on failure it records no error
message (the state, error field included, is untouched) and silently returns
the empty list — the failure is never converted to a displayed error string. -/
theorem getUniqueTags_swallows_error :
    getUniqueTagsFromSupabaseRun { tickets := [], loading := false, error := none }
        (.error "network down") =
      ({ tickets := [], loading := false, error := none }, []) := by
  decide

/-- C7 amended: every fetch, create, update, delete, bulk and search
operation of the two hooks reacts to a failed backend call by leaving the
held record list unchanged and recording the message as the displayed error
(the mutating operations also rethrow) — except getUniqueTagsFromSupabase,
which leaves the state untouched and returns the empty list. -/
theorem hook_error_handling :
    (∀ (now : String) (st : TicketsState) (e : String),
      fetchTicketsRun now st (.error e) = { st with loading := false, error := some e }) ∧
    (∀ (now today : String) (st : TicketsState) (d : TicketFormData) (e : String)
        (r : InsertRow), createTicketInsert now today d = .ok r →
      createTicketRun now today st d (.error e) = ({ st with error := some e }, .error e)) ∧
    (∀ (st : TicketsState) (id e : String),
      updateTicketRun st id (.error e) = ({ st with error := some e }, .error e)) ∧
    (∀ (st : TicketsState) (id e : String),
      deleteTicketRun st id (.error e) = ({ st with error := some e }, .error e)) ∧
    (∀ (st : TicketsState) (ids : List String) (e : String),
      bulkDeleteTicketsRun st ids (.error e) = ({ st with error := some e }, .error e)) ∧
    (∀ (today : String) (st : TicketsState) (ids : List String) (status e : String),
      bulkUpdateStatusRun today st ids status (.error e) = ({ st with error := some e }, .error e)) ∧
    (∀ (now : String) (st : TicketsState) (f : SearchFilters) (e : String),
      searchTicketsRun now st f (.error e) = { st with loading := false, error := some e }) ∧
    (∀ (st : TicketsState) (e : String),
      getUniqueTagsFromSupabaseRun st (.error e) = (st, [])) ∧
    (∀ (now : String) (st : FeedbackState) (e : String),
      fetchFeedbackRun now st (.error e) = { st with loading := false, error := some e }) ∧
    (∀ (now : String) (st : FeedbackState) (e : String),
      createFeedbackRun now st (.error e) = ({ st with error := some e }, .error e)) ∧
    (∀ (st : FeedbackState) (id e : String),
      updateFeedbackRun st id (.error e) = ({ st with error := some e }, .error e)) ∧
    (∀ (st : FeedbackState) (id e : String),
      deleteFeedbackRun st id (.error e) = ({ st with error := some e }, .error e)) ∧
    (∀ (st : FeedbackState) (ids : List String) (e : String),
      bulkDeleteFeedbackRun st ids (.error e) = ({ st with error := some e }, .error e)) ∧
    (∀ (now : String) (st : FeedbackState) (f : FeedbackSearchFilters) (e : String),
      searchFeedbackRun now st f (.error e) = { st with loading := false, error := some e }) := by
  refine ⟨?_, ?_, ?_, ?_, ?_, ?_, ?_, ?_, ?_, ?_, ?_, ?_, ?_, ?_⟩ <;> intros <;> try rfl
  rename_i hok
  rw [createTicketRun, hok]

/-- Witness for hook_error_handling: a failed createTicket backend call at a
concrete state records the message and rethrows. -/
theorem hook_error_handling_witness :
    createTicketRun "2026-01-01T00:00:00Z" "2026-01-01"
        { tickets := [], loading := false, error := none }
        { ticket_id := "5", status := "Not Started", core_team_comments := "",
          issue_description := "", contact_info := "", product_tags := [],
          category_tags := [], severity := "SEV-3" } (.error "boom") =
      ({ tickets := [], loading := false, error := some "boom" }, .error "boom") :=
  hook_error_handling.2.1 "2026-01-01T00:00:00Z" "2026-01-01"
    { tickets := [], loading := false, error := none }
    { ticket_id := "5", status := "Not Started", core_team_comments := "",
      issue_description := "", contact_info := "", product_tags := [],
      category_tags := [], severity := "SEV-3" } "boom"
    { ticket_id := some 5, status := "Not Started", issue_description := "",
      core_team_comment := "", wallet_address_safe_email := "", product := none,
      category := none, severity := "SEV-3", date_of_resolved := none,
      created_at := "2026-01-01T00:00:00Z" } (by rfl)

/-! ## C8: update payload coverage and tag clearing -/

/-- The update of the C8 counterexample: only a status is supplied. -/
def statusOnlyUpdate : TicketUpdates :=
  { ticket_id := none
    status := some "In Dev"
    core_team_comments := none
    issue_description := none
    contact_info := none
    product_tags := none
    category_tags := none
    severity := none }

/-- C8 counterexample: an update that does not supply the tag fields still
writes null to both tag columns — the stored tags are cleared even though the
caller never supplied them as empty. -/
theorem updateTicket_clears_omitted_tags :
    (updateTicketPayload "2026-01-02" statusOnlyUpdate).product = .wnull ∧
    (updateTicketPayload "2026-01-02" statusOnlyUpdate).category = .wnull ∧
    statusOnlyUpdate.product_tags = none ∧ statusOnlyUpdate.product_tags ≠ some [] ∧
    statusOnlyUpdate.category_tags = none := by
  refine ⟨by decide, by decide, by decide, by decide, by decide⟩

/-- C8 amended: updateTicket builds a payload naming every column, where a
supplied scalar field is written with the supplied value and an unsupplied
scalar field is dropped from the serialised payload, while the two tag
columns are always written — with the JSON encoding for supplied non-empty
tags and with null both when tags are supplied empty and when they are
omitted; the numeric id is rewritten only for a supplied non-blank
identifier, and the resolution date only when a status is supplied. -/
theorem updateTicket_payload_semantics :
    (∀ (today : String) (u : TicketUpdates) (s : String), u.status = some s →
      (updateTicketPayload today u).status = .wstr s) ∧
    (∀ (today : String) (u : TicketUpdates), u.status = none →
      (updateTicketPayload today u).status = .absent) ∧
    (∀ (today : String) (u : TicketUpdates) (s : String), u.issue_description = some s →
      (updateTicketPayload today u).issue_description = .wstr s) ∧
    (∀ (today : String) (u : TicketUpdates), u.issue_description = none →
      (updateTicketPayload today u).issue_description = .absent) ∧
    (∀ (today : String) (u : TicketUpdates) (s : String), u.core_team_comments = some s →
      (updateTicketPayload today u).core_team_comment = .wstr s) ∧
    (∀ (today : String) (u : TicketUpdates) (s : String), u.contact_info = some s →
      (updateTicketPayload today u).wallet_address_safe_email = .wstr s) ∧
    (∀ (today : String) (u : TicketUpdates) (s : String), u.severity = some s →
      (updateTicketPayload today u).severity = .wstr s) ∧
    (∀ (today : String) (u : TicketUpdates) (l : List String), u.product_tags = some l →
      l ≠ [] → (updateTicketPayload today u).product = .wstr (jsonStringifyStrArr l)) ∧
    (∀ (today : String) (u : TicketUpdates),
      ((updateTicketPayload today u).product = .wnull ↔
        (u.product_tags = none ∨ u.product_tags = some []))) ∧
    (∀ (today : String) (u : TicketUpdates) (l : List String), u.category_tags = some l →
      l ≠ [] → (updateTicketPayload today u).category = .wstr (jsonStringifyStrArr l)) ∧
    (∀ (today : String) (u : TicketUpdates),
      ((updateTicketPayload today u).category = .wnull ↔
        (u.category_tags = none ∨ u.category_tags = some []))) ∧
    (∀ (today : String) (u : TicketUpdates), u.ticket_id = none →
      (updateTicketPayload today u).ticket_id = .absent) ∧
    (∀ (today : String) (u : TicketUpdates), u.status = none →
      (updateTicketPayload today u).date_of_resolved = .absent) := by
  refine ⟨?_, ?_, ?_, ?_, ?_, ?_, ?_, ?_, ?_, ?_, ?_, ?_, ?_⟩
  · intro today u s h
    simp [updateTicketPayload, optWrite, h]
  · intro today u h
    simp [updateTicketPayload, optWrite, h]
  · intro today u s h
    simp [updateTicketPayload, optWrite, h]
  · intro today u h
    simp [updateTicketPayload, optWrite, h]
  · intro today u s h
    simp [updateTicketPayload, optWrite, h]
  · intro today u s h
    simp [updateTicketPayload, optWrite, h]
  · intro today u s h
    simp [updateTicketPayload, optWrite, h]
  · intro today u l h hne
    simp [updateTicketPayload, h, safeJsonStringify, hne]
  · intro today u
    cases h : u.product_tags with
    | none => simp [updateTicketPayload, h]
    | some l =>
      cases l with
      | nil => simp [updateTicketPayload, h, safeJsonStringify]
      | cons x xs =>
        simp [updateTicketPayload, h, safeJsonStringify]
  · intro today u l h hne
    simp [updateTicketPayload, h, safeJsonStringify, hne]
  · intro today u
    cases h : u.category_tags with
    | none => simp [updateTicketPayload, h]
    | some l =>
      cases l with
      | nil => simp [updateTicketPayload, h, safeJsonStringify]
      | cons x xs =>
        simp [updateTicketPayload, h, safeJsonStringify]
  · intro today u h
    simp [updateTicketPayload, h]
  · intro today u h
    simp [updateTicketPayload, h]

/-- Witness for updateTicket_payload_semantics: a supplied status is written,
omitted tags read back as the null write, supplied tags as their encoding. -/
theorem updateTicket_payload_semantics_witness :
    (updateTicketPayload "2026-01-02" statusOnlyUpdate).status = .wstr "In Dev" ∧
    ((updateTicketPayload "2026-01-02" statusOnlyUpdate).product = .wnull ↔
      (statusOnlyUpdate.product_tags = none ∨ statusOnlyUpdate.product_tags = some [])) ∧
    (updateTicketPayload "2026-01-02"
        { statusOnlyUpdate with product_tags := some ["a"] }).product =
      .wstr (jsonStringifyStrArr ["a"]) := by
  refine ⟨?_, ?_, ?_⟩
  · exact updateTicket_payload_semantics.1 "2026-01-02" statusOnlyUpdate "In Dev" rfl
  · exact updateTicket_payload_semantics.2.2.2.2.2.2.2.2.1 "2026-01-02" statusOnlyUpdate
  · exact updateTicket_payload_semantics.2.2.2.2.2.2.2.1 "2026-01-02"
      { statusOnlyUpdate with product_tags := some ["a"] } ["a"] rfl (by decide)

/-! ## C10: bulk delete removes exactly the selected tickets -/

/-- C10: when the backend delete succeeds, the local list after
bulkDeleteTickets is a sublist of the previous list (every survivor unchanged
and in its original order) and holds exactly the previous tickets whose id is
not in the selection. -/
theorem bulkDelete_removes_exactly (st : TicketsState) (ids : List String) :
    ((bulkDeleteTicketsRun st ids (.ok ())).1.tickets).Sublist st.tickets ∧
    (∀ t : Ticket, t ∈ (bulkDeleteTicketsRun st ids (.ok ())).1.tickets ↔
      (t ∈ st.tickets ∧ ¬ ids.contains t.id = true)) ∧
    (bulkDeleteTicketsRun st ids (.ok ())).2 = .ok () := by
  refine ⟨?_, ?_, rfl⟩
  · exact List.filter_sublist _
  · intro t
    show t ∈ st.tickets.filter (fun t => !ids.contains t.id) ↔ _
    rw [List.mem_filter]
    simp
